import Mathlib

/- Verification of the GO-LD2451 radar driver.

The repository contains two revisions of the same Go package:
  * namespace VA embeds src/LD2451.go;
  * namespace VB embeds src/unnamed/part_000.

The serial port is modelled as a finite byte stream (a List Nat).  A call
port.Read(buf) with len(buf) = n is modelled as removing the first n bytes
from the stream; when fewer than n bytes remain the source fails, which the
Go code observes as a non-nil error (Outcome.ioError).  A Go runtime panic
(out-of-range slice index) is Outcome.panicked.  The decode loop never
terminates on its own, so it is given fuel; Outcome.fuelOut is the fuel
artefact, unreachable whenever fuel exceeds the stream length. -/

/-- Terminal outcome of running the decode loop on a finite byte stream. -/
inductive Outcome where
  | ioError
  | panicked
  | fuelOut
deriving DecidableEq, Repr

/-- Model of port.Read into a buffer of size n against a stream s:
exactly the first n bytes are delivered, or the read fails. -/
def takeExact (n : Nat) (s : List Nat) : Option (List Nat × List Nat) :=
  if n ≤ s.length then some (s.take n, s.drop n) else none

/-- Direction is an int in the source; raw byte values are kept as-is. -/
abbrev Direction := Nat

/-- Go constant DirectionAway = 0. -/
def DirectionAway : Direction := 0

/-- Go constant DirectionToward = 1. -/
def DirectionToward : Direction := 1

/-- Embeds the String method of Direction. -/
def directionString (d : Direction) : String :=
  if d = DirectionAway then "Away"
  else if d = DirectionToward then "Toward"
  else "Unknown"

namespace VA

/-- Target of src/LD2451.go: carries a per-target Alarm flag. -/
structure Target where
  alarm : Bool
  angle : Int
  distance : Nat
  direction : Direction
  speed : Nat
  snr : Nat
deriving DecidableEq, Repr

/-- Embeds the per-target loop of src/LD2451.go lines 136-150.  Each
iteration reads buf[0] .. buf[5] and then reslices buf = buf[6:]; in Go any
of those accesses panics when the slice holds fewer than 6 bytes, so the
iteration panics exactly when buf.length < 6.  Returns the targets emitted
before any panic, and whether a panic occurred. -/
def decodeTargets : Nat → List Nat → List Target × Bool
  | 0, _ => ([], false)
  | n + 1, buf =>
    if 6 ≤ buf.length then
      let t : Target :=
        { alarm := buf.getD 0 0 == 1
          angle := (buf.getD 1 0 : Int) - 0x80
          distance := buf.getD 2 0
          direction := buf.getD 3 0
          speed := buf.getD 4 0
          snr := buf.getD 5 0 }
      let r := decodeTargets n (buf.drop 6)
      (t :: r.1, r.2)
    else ([], true)

/-- Embeds the read loop of src/LD2451.go lines 83-155 on a finite stream.
Returns the targets sent to the targets channel, in order, together with the
terminal outcome.  port.Flush() at line 152 discards whatever the serial
driver happens to have buffered; in this pure stream model no driver buffer
exists, so it is modelled as discarding nothing. -/
def read : Nat → List Nat → List Target × Outcome
  | 0, _ => ([], .fuelOut)
  | _ + 1, [] => ([], .ioError)
  | fuel + 1, b :: s =>
    if b = 0xF4 then
      match takeExact 3 s with
      | none => ([], .ioError)
      | some (hdr, s2) =>
        if hdr = [0xF3, 0xF2, 0xF1] then
          match takeExact 2 s2 with
          | none => ([], .ioError)
          | some (lenB, s3) =>
            let frameLength := lenB.getD 1 0 <<< 8 ||| lenB.getD 0 0
            if frameLength = 0 then
              match takeExact 4 s3 with
              | none => ([], .ioError)
              | some (_, s4) => read fuel s4
            else
              match takeExact frameLength s3 with
              | none => ([], .ioError)
              | some (payload, s5) =>
                let numTargets := payload.getD 0 0
                let d := decodeTargets numTargets (payload.drop 1)
                if d.2 then (d.1, .panicked)
                else
                  let r := read fuel s5
                  (d.1 ++ r.1, r.2)
        else read fuel s2
    else read fuel s

end VA

namespace VB

/-- Target of src/unnamed/part_000: no Alarm field. -/
structure Target where
  angle : Int
  distance : Nat
  direction : Direction
  speed : Nat
  snr : Nat
deriving DecidableEq, Repr

/-- Embeds the per-target loop of src/unnamed/part_000 lines 139-152.  Each
iteration reads buf[1] .. buf[5] (buf[0] is never read) and then reslices
buf = buf[6:]; in Go this panics exactly when the slice holds fewer than 6
bytes.  Returns the targets emitted before any panic, and whether a panic
occurred. -/
def decodeTargets : Nat → List Nat → List Target × Bool
  | 0, _ => ([], false)
  | n + 1, buf =>
    if 6 ≤ buf.length then
      let t : Target :=
        { angle := (buf.getD 1 0 : Int) - 0x80
          distance := buf.getD 2 0
          direction := buf.getD 3 0
          speed := buf.getD 4 0
          snr := buf.getD 5 0 }
      let r := decodeTargets n (buf.drop 6)
      (t :: r.1, r.2)
    else ([], true)

/-- Embeds the read loop of src/unnamed/part_000 lines 85-162 on a finite
stream.  Differences from VA.read: the payload cursor skips 2 bytes
(buf = buf[2:], which panics when the payload holds fewer than 2 bytes), and
the frame footer is consumed by reading 4 further bytes instead of
port.Flush(). -/
def read : Nat → List Nat → List Target × Outcome
  | 0, _ => ([], .fuelOut)
  | _ + 1, [] => ([], .ioError)
  | fuel + 1, b :: s =>
    if b = 0xF4 then
      match takeExact 3 s with
      | none => ([], .ioError)
      | some (hdr, s2) =>
        if hdr = [0xF3, 0xF2, 0xF1] then
          match takeExact 2 s2 with
          | none => ([], .ioError)
          | some (lenB, s3) =>
            let frameLength := lenB.getD 1 0 <<< 8 ||| lenB.getD 0 0
            if frameLength = 0 then
              match takeExact 4 s3 with
              | none => ([], .ioError)
              | some (_, s4) => read fuel s4
            else
              match takeExact frameLength s3 with
              | none => ([], .ioError)
              | some (payload, s5) =>
                let numTargets := payload.getD 0 0
                if payload.length < 2 then ([], .panicked)
                else
                  let d := decodeTargets numTargets (payload.drop 2)
                  if d.2 then (d.1, .panicked)
                  else
                    match takeExact 4 s5 with
                    | none => (d.1, .ioError)
                    | some (_, s6) =>
                      let r := read fuel s6
                      (d.1 ++ r.1, r.2)
        else read fuel s2
    else read fuel s

/-- Result of one sendCommand run: ok when the function runs to its end,
otherwise the single error it sends to the errors channel before returning
(a forwarded read error, or the descriptive fmt.Errorf). -/
inductive CmdResult where
  | ok
  | ioError
  | cmdError
deriving DecidableEq, Repr

/-- The port interactions sendCommand can perform, as the port answers them:
the results of the two Writes (which the code discards), and for each of the
four Reads either the filled buffer or a read error (none). -/
structure CmdPort where
  writeOk1 : Bool
  ack1 : Option Nat
  resp1 : Option (List Nat)
  writeOk2 : Bool
  ack2 : Option Nat
  resp2 : Option (List Nat)
deriving DecidableEq, Repr

/-- Observable trace of one sendCommand run: the frames written to the port,
the number of port reads performed, and the result. -/
structure CmdTrace where
  writes : List (List Nat)
  reads : Nat
  result : CmdResult
deriving DecidableEq, Repr

/-- The fixed 14-byte frame of the first Write (part_000 line 175). -/
def enterConfigFrame : List Nat :=
  [0xFD, 0xFC, 0xFB, 0xFA, 0x04, 0x00, 0xFF, 0x00, 0x01, 0x00, 0x04, 0x03,
   0x02, 0x01]

/-- The fixed 12-byte frame of the second Write (part_000 line 205). -/
def exitConfigFrame : List Nat :=
  [0xFD, 0xFC, 0xFB, 0xFA, 0x02, 0x00, 0xFE, 0x00, 0x04, 0x03, 0x02, 0x01]

/-- Embeds status := buf[7:]; status = status[:len(status)-trim]. -/
def statusField (trim : Nat) (buf : List Nat) : List Nat :=
  (buf.drop 7).take ((buf.drop 7).length - trim)

/-- Embeds endFrame := buf[len(buf)-4:]. -/
def endField (buf : List Nat) : List Nat :=
  buf.drop (buf.length - 4)

/-- Embeds sendCommand (src/unnamed/part_000 lines 173-232).  The two
port.Write calls discard both return values, so the port's answers writeOk1
and writeOk2 are never consulted; each failing check sends exactly one error
to the errors channel and returns. -/
def sendCommand (command : List Nat) (p : CmdPort) : CmdTrace :=
  match p.ack1 with
  | none => ⟨[enterConfigFrame], 1, .ioError⟩
  | some b1 =>
    if b1 ≠ 0xFD then ⟨[enterConfigFrame], 1, .cmdError⟩
    else
      match p.resp1 with
      | none => ⟨[enterConfigFrame], 2, .ioError⟩
      | some buf1 =>
        if ¬ endField buf1 = [0x04, 0x03, 0x02, 0x01] ∨
            ¬ statusField 8 buf1 = [0x00, 0x00] then
          ⟨[enterConfigFrame], 2, .cmdError⟩
        else
          match p.ack2 with
          | none => ⟨[enterConfigFrame, exitConfigFrame], 3, .ioError⟩
          | some b2 =>
            if b2 ≠ 0xFD then ⟨[enterConfigFrame, exitConfigFrame], 3, .cmdError⟩
            else
              match p.resp2 with
              | none => ⟨[enterConfigFrame, exitConfigFrame], 4, .ioError⟩
              | some buf2 =>
                if ¬ endField buf2 = [0x04, 0x03, 0x02, 0x01] ∨
                    ¬ statusField 4 buf2 = [0x00, 0x00] then
                  ⟨[enterConfigFrame, exitConfigFrame], 4, .cmdError⟩
                else ⟨[enterConfigFrame, exitConfigFrame], 4, .ok⟩

/-- The checks the code applies to an acknowledgment buffer: terminator
bytes 04 03 02 01 and status bytes 00 00. -/
def respChecksOut (trim : Nat) (buf : List Nat) : Prop :=
  endField buf = [0x04, 0x03, 0x02, 0x01] ∧ statusField trim buf = [0x00, 0x00]

/-- Step 1 of the transaction is accepted by the code's checks. -/
def step1Accepted (p : CmdPort) : Prop :=
  p.ack1 = some 0xFD ∧ ∃ buf, p.resp1 = some buf ∧ respChecksOut 8 buf

/-- Step 2 of the transaction is accepted by the code's checks. -/
def step2Accepted (p : CmdPort) : Prop :=
  p.ack2 = some 0xFD ∧ ∃ buf, p.resp2 = some buf ∧ respChecksOut 4 buf

end VB

/-- Outcome of one read step of the engine. -/
inductive ReadOutcome where
  | fail
  | proceed (buf : List Nat)
deriving DecidableEq, Repr

/-- Every port read in the repository has the shape
`_, err := ld2451.port.Read(buf)` followed by a test of err alone: the byte
count returned by Read is discarded.  buf is allocated by make and hence
zero-filled, so when the port delivers fewer than the requested bytes
without an error, the code continues with the delivered bytes padded by
zeros to the requested length. -/
def readStep (requested : Nat) (delivered : List Nat) (readErr : Bool) :
    ReadOutcome :=
  if readErr then .fail
  else .proceed (delivered ++ List.replicate (requested - delivered.length) 0)

/-- State of the two channels of the target stream once the decode goroutine
has finished its work: the targets still buffered in the targets channel,
and whether the goroutine is still blocked sending its single terminal error
on the unbuffered errors channel.  read sends one error and returns, so
after that handoff no sender of either channel remains. -/
structure ChannelState where
  queued : List VA.Target
  errorPending : Bool
deriving DecidableEq, Repr

/-- What one ReadTarget call delivers, together with the channel state it
leaves behind; blocksForever marks a select with no ready case and no
remaining sender. -/
inductive ReadTargetResult where
  | target (t : VA.Target) (s : ChannelState)
  | err (s : ChannelState)
  | blocksForever
deriving DecidableEq, Repr

/-- Embeds ReadTarget (src/LD2451.go lines 157-164): a select over the two
channels.  When both channels are ready Go picks pseudo-randomly; the model
prefers the targets channel, a choice irrelevant to the states considered
here, where at most one case is ever ready.  Receiving the pending error
consumes it — the sender has exited — so the next call on an empty queue
finds no ready case and no future sender: the select blocks forever. -/
def ReadTarget : ChannelState → ReadTargetResult
  | ⟨t :: ts, e⟩ => .target t ⟨ts, e⟩
  | ⟨[], true⟩ => .err ⟨[], false⟩
  | ⟨[], false⟩ => .blocksForever

/-- The concrete byte stream of the spec scenario. -/
def c1input : List Nat :=
  [0xF4, 0xF3, 0xF2, 0xF1, 0x07, 0x00, 0x01, 0x00, 0x90, 0x0A, 0x01,
   0x14, 0x1E, 0xF8, 0xF7, 0xF6, 0xF5]

/-- A 17-byte acknowledgment buffer that passes the step-1 checks. -/
def goodResp1 : List Nat :=
  [0, 0, 0, 0, 0, 0, 0, 0, 0, 0, 0, 0, 0, 0x04, 0x03, 0x02, 0x01]

/-- A 13-byte acknowledgment buffer that passes the step-2 checks. -/
def goodResp2 : List Nat :=
  [0, 0, 0, 0, 0, 0, 0, 0, 0, 0x04, 0x03, 0x02, 0x01]

theorem takeExact_append (xs rest : List Nat) :
    takeExact xs.length (xs ++ rest) = some (xs, rest) := by
  simp [takeExact, List.take_left, List.drop_left]

/-- Claim C1: decoding the byte stream F4 F3 F2 F1 07 00 01 00 90 0A 01 14
1E F8 F7 F6 F5 (one frame, frameLength = 7, numTargets = 1) yields exactly
one Target with angle 16, distance 10, direction Toward, speed 20, snr 30
(the stream then ends, which the loop reports as its terminal read error). -/
theorem c1_single_frame_decodes :
    VA.read 18 c1input =
      ([{ alarm := false, angle := 16, distance := 10,
          direction := DirectionToward, speed := 20, snr := 30 }],
       .ioError) := by
  decide

/-- Claim C2, behaviour at the failing input: the frame F4 F3 F2 F1 01 00 02
declares numTargets = 2 with a 1-byte payload, so fewer than 6*numTargets
payload bytes remain; the code does not fail with a framing error and
resynchronize — it indexes past the payload slice and the decode goroutine
panics, emitting nothing further. -/
theorem c2_short_payload_panics :
    VA.read 8 [0xF4, 0xF3, 0xF2, 0xF1, 0x01, 0x00, 0x02] = ([], .panicked) := by
  decide

/-- Claim C3, behaviour at the failing input: at the 3-byte header-remainder
read, a port that delivers only the single byte 0xF3 with a nil error is not
treated as a hard failure — the engine proceeds with the zero-padded buffer
F3 00 00 even though only 1 of the 3 requested bytes was obtained. -/
theorem c3_short_read_proceeds :
    readStep 3 [0xF3] false = .proceed [0xF3, 0, 0] ∧
      ([0xF3] : List Nat).length < 3 := by
  decide

/-- Claim C4 counterexample: receiving the terminal error once consumes it
(its sender, the decode goroutine, has exited), and the very next ReadTarget
call on the resulting state blocks forever instead of delivering the same
terminal condition again. -/
theorem c4_error_not_redelivered :
    ReadTarget ⟨[], true⟩ = .err ⟨[], false⟩ ∧
      ReadTarget ⟨[], false⟩ = .blocksForever := by
  decide

/-- Claim C4 amended: the terminal error is delivered at most once; once it
has been delivered and the buffered targets are drained, every subsequent
ReadTarget call blocks forever. -/
theorem c4_blocks_after_terminal_error (s : ChannelState)
    (hq : s.queued = []) (he : s.errorPending = false) :
    ReadTarget s = .blocksForever := by
  obtain ⟨q, e⟩ := s
  simp only at hq he
  subst hq; subst he
  rfl

/-- Witness for the amended claim C4 at the concrete post-error state. -/
theorem c4_blocks_after_terminal_error_witness :
    ReadTarget ⟨[], false⟩ = .blocksForever :=
  c4_blocks_after_terminal_error ⟨[], false⟩ rfl rfl

/-- Claim C5 counterexample: with both port writes failing (results the code
discards) and all four reads answering correctly, sendCommand performs the
whole transaction and reports success — a write failure surfaces no error
and aborts nothing. -/
theorem c5_write_failure_ignored :
    VB.sendCommand []
        ⟨false, some 0xFD, some goodResp1, false, some 0xFD, some goodResp2⟩ =
      ⟨[VB.enterConfigFrame, VB.exitConfigFrame], 4, .ok⟩ := by
  decide

/-- Claim C5 amended: every read failure, ack-start mismatch, status
mismatch and terminator mismatch makes the run end with a single non-ok
result and aborts the remaining steps — the transaction succeeds exactly
when both steps pass all read checks, and the exit-config frame is written
exactly when step 1 passed; the discarded write results play no part in any
of it. -/
theorem c5_failed_checks_abort (command : List Nat) (p : VB.CmdPort) :
    ((VB.sendCommand command p).result = .ok ↔
      VB.step1Accepted p ∧ VB.step2Accepted p) ∧
    ((VB.sendCommand command p).writes =
        [VB.enterConfigFrame, VB.exitConfigFrame] ↔ VB.step1Accepted p) ∧
    ((VB.sendCommand command p).writes = [VB.enterConfigFrame] ↔
      ¬ VB.step1Accepted p) := by
  obtain ⟨w1, a1, r1, w2, a2, r2⟩ := p
  rcases a1 with _ | b1
  · simp [VB.sendCommand, VB.step1Accepted]
  rcases eq_or_ne b1 0xFD with hb1 | hb1
  swap
  · simp [VB.sendCommand, VB.step1Accepted, hb1]
  subst hb1
  rcases r1 with _ | buf1
  · simp [VB.sendCommand, VB.step1Accepted]
  by_cases h1 : VB.respChecksOut 8 buf1
  swap
  · have h1' : ¬ VB.endField buf1 = [0x04, 0x03, 0x02, 0x01] ∨
        ¬ VB.statusField 8 buf1 = [0x00, 0x00] := by
      simp only [VB.respChecksOut, not_and_or] at h1
      exact h1
    simp [VB.sendCommand, VB.step1Accepted, VB.respChecksOut, h1', if_pos]
    tauto
  have h1' : ¬ (¬ VB.endField buf1 = [0x04, 0x03, 0x02, 0x01] ∨
      ¬ VB.statusField 8 buf1 = [0x00, 0x00]) := by
    push_neg
    exact h1
  rcases a2 with _ | b2
  · simp [VB.sendCommand, VB.step1Accepted, VB.step2Accepted, h1', h1]
  rcases eq_or_ne b2 0xFD with hb2 | hb2
  swap
  · simp [VB.sendCommand, VB.step1Accepted, VB.step2Accepted, h1', h1, hb2]
  subst hb2
  rcases r2 with _ | buf2
  · simp [VB.sendCommand, VB.step1Accepted, VB.step2Accepted, h1', h1]
  by_cases h2 : VB.respChecksOut 4 buf2
  swap
  · have h2' : ¬ VB.endField buf2 = [0x04, 0x03, 0x02, 0x01] ∨
        ¬ VB.statusField 4 buf2 = [0x00, 0x00] := by
      simp only [VB.respChecksOut, not_and_or] at h2
      exact h2
    simp [VB.sendCommand, VB.step1Accepted, VB.step2Accepted, h1', h1, h2']
    tauto
  have h2' : ¬ (¬ VB.endField buf2 = [0x04, 0x03, 0x02, 0x01] ∨
      ¬ VB.statusField 4 buf2 = [0x00, 0x00]) := by
    push_neg
    exact h2
  simp [VB.sendCommand, VB.step1Accepted, VB.step2Accepted, h1', h1, h2', h2]

/-- Claim C9: the command parameter passed to sendCommand is never used; any
two argument values produce identical port traces. -/
theorem c9_command_argument_unused (c1 c2 : List Nat) (p : VB.CmdPort) :
    VB.sendCommand c1 p = VB.sendCommand c2 p := rfl

/-- Claim C6: when a 0xF4 byte is matched but the following 3-byte block is
not F3 F2 F1, exactly those 3 bytes are discarded and scanning resumes with
the next byte of the source; the continuation does not depend on the
discarded bytes, so they are never re-examined for an overlapping header. -/
theorem c6_mismatched_header_block_discarded (fuel b1 b2 b3 : Nat)
    (rest : List Nat) (h : ¬ [b1, b2, b3] = [0xF3, 0xF2, 0xF1]) :
    VA.read (fuel + 1) (0xF4 :: b1 :: b2 :: b3 :: rest) = VA.read fuel rest := by
  have h3 : takeExact 3 (b1 :: b2 :: b3 :: rest) = some ([b1, b2, b3], rest) := by
    simp [takeExact]
  simp [VA.read, h3, h]

/-- Witness for claim C6 at a concrete mismatching block. -/
theorem c6_mismatched_header_block_discarded_witness :
    VA.read 1 (0xF4 :: 0 :: 0 :: 0 :: []) = VA.read 0 [] :=
  c6_mismatched_header_block_discarded 0 0 0 0 [] (by decide)

/-- Claim C7: a frame whose decoded frameLength is 0 emits no target; the
loop consumes exactly the next 4 bytes (the frame footer) and resumes header
scanning at the bytes following them. -/
theorem c7_zero_length_frame (fuel lo hi : Nat) (w rest : List Nat)
    (hw : w.length = 4) (hlen : hi <<< 8 ||| lo = 0) :
    VA.read (fuel + 1)
        (0xF4 :: 0xF3 :: 0xF2 :: 0xF1 :: lo :: hi :: (w ++ rest)) =
      VA.read fuel rest := by
  have h3 : takeExact 3 (0xF3 :: 0xF2 :: 0xF1 :: lo :: hi :: (w ++ rest)) =
      some ([0xF3, 0xF2, 0xF1], lo :: hi :: (w ++ rest)) := by
    simp [takeExact]
  have h2 : takeExact 2 (lo :: hi :: (w ++ rest)) =
      some ([lo, hi], w ++ rest) := by
    simp [takeExact]
  have h4 : takeExact 4 (w ++ rest) = some (w, rest) := by
    rw [← hw]
    exact takeExact_append w rest
  simp [VA.read, h3, h2, h4, hlen]

/-- Witness for claim C7 at a concrete zero-length frame followed by its
footer. -/
theorem c7_zero_length_frame_witness :
    VA.read 2
        (0xF4 :: 0xF3 :: 0xF2 :: 0xF1 :: 0 :: 0 ::
          ([0xF8, 0xF7, 0xF6, 0xF5] ++ [])) =
      VA.read 1 [] :=
  c7_zero_length_frame 1 0 0 [0xF8, 0xF7, 0xF6, 0xF5] [] rfl rfl

/-- Claim C8: after the target block of a non-empty frame decodes without
panicking, the 4 footer bytes F8 F7 F6 F5 (not counted in frameLength) are
consumed from the source before the loop resumes header scanning at the
following bytes. -/
theorem c8_footer_consumed_after_targets (fuel lo hi : Nat)
    (payload rest : List Nat) (hlen : hi <<< 8 ||| lo = payload.length)
    (hp : 2 ≤ payload.length)
    (hd : (VB.decodeTargets (payload.getD 0 0) (payload.drop 2)).2 = false) :
    VB.read (fuel + 1)
        (0xF4 :: 0xF3 :: 0xF2 :: 0xF1 :: lo :: hi ::
          (payload ++ ([0xF8, 0xF7, 0xF6, 0xF5] ++ rest))) =
      ((VB.decodeTargets (payload.getD 0 0) (payload.drop 2)).1 ++
          (VB.read fuel rest).1,
        (VB.read fuel rest).2) := by
  have h3 : takeExact 3
      (0xF3 :: 0xF2 :: 0xF1 :: lo :: hi ::
        (payload ++ ([0xF8, 0xF7, 0xF6, 0xF5] ++ rest))) =
      some ([0xF3, 0xF2, 0xF1],
        lo :: hi :: (payload ++ ([0xF8, 0xF7, 0xF6, 0xF5] ++ rest))) := by
    simp [takeExact]
  have h2 : takeExact 2
      (lo :: hi :: (payload ++ ([0xF8, 0xF7, 0xF6, 0xF5] ++ rest))) =
      some ([lo, hi], payload ++ ([0xF8, 0xF7, 0xF6, 0xF5] ++ rest)) := by
    simp [takeExact]
  have hpay : takeExact payload.length
      (payload ++ ([0xF8, 0xF7, 0xF6, 0xF5] ++ rest)) =
      some (payload, [0xF8, 0xF7, 0xF6, 0xF5] ++ rest) :=
    takeExact_append payload ([0xF8, 0xF7, 0xF6, 0xF5] ++ rest)
  have hfoot : takeExact 4 ([0xF8, 0xF7, 0xF6, 0xF5] ++ rest) =
      some ([0xF8, 0xF7, 0xF6, 0xF5], rest) :=
    takeExact_append [0xF8, 0xF7, 0xF6, 0xF5] rest
  have hnz : ¬ payload.length = 0 := by omega
  have hnlt : ¬ payload.length < 2 := by omega
  simp only [List.cons_append, List.nil_append,
    List.getD_eq_getElem?_getD] at h3 h2 hpay hfoot hd
  simp [VB.read, h3, h2, hlen, hpay, hfoot, hnz, hnlt, hd]

/-- Witness for claim C8 at a concrete one-target frame. -/
theorem c8_footer_consumed_after_targets_witness :
    VB.read 2
        (0xF4 :: 0xF3 :: 0xF2 :: 0xF1 :: 8 :: 0 ::
          ([1, 0, 0, 0x90, 10, 1, 20, 30] ++ ([0xF8, 0xF7, 0xF6, 0xF5] ++ []))) =
      ((VB.decodeTargets (([1, 0, 0, 0x90, 10, 1, 20, 30] : List Nat).getD 0 0)
            (([1, 0, 0, 0x90, 10, 1, 20, 30] : List Nat).drop 2)).1 ++
          (VB.read 1 []).1,
        (VB.read 1 []).2) :=
  c8_footer_consumed_after_targets 1 8 0 [1, 0, 0, 0x90, 10, 1, 20, 30] []
    (by decide) (by decide) (by decide)

/-- Claim C10: the first byte of each 6-byte target record is never read by
the part_000 decoder — two target blocks of equal length that agree at every
offset not divisible by 6 decode to identical target sequences (and panic
identically). -/
theorem c10_record_byte0_never_read (n : Nat) (xs ys : List Nat)
    (hlen : xs.length = ys.length)
    (hagree : ∀ i, i < xs.length → i % 6 ≠ 0 → xs.getD i 0 = ys.getD i 0) :
    VB.decodeTargets n xs = VB.decodeTargets n ys := by
  induction n generalizing xs ys with
  | zero => rfl
  | succ n ih =>
    by_cases h6 : 6 ≤ xs.length
    · have h6' : 6 ≤ ys.length := hlen ▸ h6
      have e1 : xs.getD 1 0 = ys.getD 1 0 := hagree 1 (by omega) (by decide)
      have e2 : xs.getD 2 0 = ys.getD 2 0 := hagree 2 (by omega) (by decide)
      have e3 : xs.getD 3 0 = ys.getD 3 0 := hagree 3 (by omega) (by decide)
      have e4 : xs.getD 4 0 = ys.getD 4 0 := hagree 4 (by omega) (by decide)
      have e5 : xs.getD 5 0 = ys.getD 5 0 := hagree 5 (by omega) (by decide)
      have ihd : VB.decodeTargets n (xs.drop 6) = VB.decodeTargets n (ys.drop 6) := by
        apply ih
        · simp [hlen]
        · intro i hi hm
          have hdx : (xs.drop 6).getD i 0 = xs.getD (6 + i) 0 := by
            simp [List.getD_eq_getElem?_getD, List.getElem?_drop]
          have hdy : (ys.drop 6).getD i 0 = ys.getD (6 + i) 0 := by
            simp [List.getD_eq_getElem?_getD, List.getElem?_drop]
          rw [hdx, hdy]
          apply hagree
          · have := List.length_drop 6 xs
            omega
          · simpa [Nat.add_mod_left] using hm
      simp only [VB.decodeTargets]
      rw [if_pos h6, if_pos h6', e1, e2, e3, e4, e5, ihd]
    · have h6' : ¬ 6 ≤ ys.length := hlen ▸ h6
      simp only [VB.decodeTargets]
      rw [if_neg h6, if_neg h6']

/-- Witness for claim C10: two concrete one-record blocks differing only in
record byte 0 decode identically. -/
theorem c10_record_byte0_never_read_witness :
    VB.decodeTargets 1 [7, 1, 2, 3, 4, 5] = VB.decodeTargets 1 [0, 1, 2, 3, 4, 5] :=
  c10_record_byte0_never_read 1 [7, 1, 2, 3, 4, 5] [0, 1, 2, 3, 4, 5]
    (by decide) (by decide)
